import Mathlib

/-!
Shallow embedding of `src/app/agents.py` (repository `doctorai`): the
two-stage "generate then verify" agent pipeline, its payload coercion,
persona registry, message assembly and completion-invoker retry logic.

Modelling conventions:
* Python values flowing through the coercion layer are modelled by `PyVal`,
  covering the JSON-serialisable values the program manipulates
  (strings, integers, booleans, `None`, lists, dicts).  JSON numeric
  literals are modelled as integers; fractional/exponent numerals and the
  non-standard `NaN`/`Infinity` extensions of Python's `json.loads` are
  outside the modelled universe (no claim depends on them).
* `dict` is an association list with unique keys (Python dict semantics:
  insertion keeps position, later assignment replaces the value).
* Exceptions are modelled explicitly with `Except`; fallible library calls
  (`json.loads`, the remote chat endpoint) return `Except`/`Option`.
* The remote endpoint `client.chat.completions.create` is an oracle
  `Nat → ChatParams → Except ApiError Completion`, indexed by the position
  of the call in the run (matching the order-based stubs in the repo tests).
-/

namespace DoctorAI

/-- Python value universe for the JSON-serialisable data handled by
`agents.py` (model reply payloads, parsed JSON, fallback records). -/
inductive PyVal where
  | str : String → PyVal
  | int : Int → PyVal
  | bool : Bool → PyVal
  | none : PyVal
  | list : List PyVal → PyVal
  | dict : List (String × PyVal) → PyVal

/-- Python truthiness (`bool(x)`) on the modelled value universe. -/
def pyTruthy : PyVal → Bool
  | .str s => s ≠ ""
  | .int n => n ≠ 0
  | .bool b => b
  | .none => false
  | .list xs => ¬xs.isEmpty
  | .dict kvs => ¬kvs.isEmpty

/-- Python `d.get(k)` on the association-list model of a dict (keys are
unique by construction, so first match suffices). -/
def pyDictGet (kvs : List (String × PyVal)) (k : String) : Option PyVal :=
  (kvs.find? (fun kv => kv.1 = k)).map (fun kv => kv.2)

/-- Python `d[k] = v`: replace in place if the key exists, else append. -/
def pyDictInsert (kvs : List (String × PyVal)) (k : String) (v : PyVal) :
    List (String × PyVal) :=
  if kvs.any (fun kv => kv.1 = k) then
    kvs.map (fun kv => if kv.1 = k then (k, v) else kv)
  else
    kvs ++ [(k, v)]

/-- Whitespace characters stripped by Python `str.strip()` (ASCII set). -/
def pyWsChar (c : Char) : Bool :=
  c == ' ' || c == '\t' || c == '\n' || c == '\r' || c == '\x0b' || c == '\x0c'

/-- Python `s.strip()`. -/
def pyStrip (s : String) : String :=
  String.mk (((s.toList.dropWhile pyWsChar).reverse.dropWhile pyWsChar).reverse)

/-- Python `s.strip(chars)` for a single strip character. -/
def pyStripChar (s : String) (c : Char) : String :=
  String.mk (((s.toList.dropWhile (· == c)).reverse.dropWhile (· == c)).reverse)

/-- Substring test, Python `needle in hay`. -/
def strContainsSub (hay needle : String) : Bool :=
  hay.toList.tails.any (fun t => needle.toList.isPrefixOf t)

/-- Python `s.startswith(pre)` (character-list based). -/
def strStartsWith (s pre : String) : Bool :=
  pre.toList.isPrefixOf s.toList

/-- Python `s[n:]`: drop the first `n` characters. -/
def strDrop (s : String) (n : Nat) : String :=
  String.mk (s.toList.drop n)

/-- ASCII lowercasing of one character, as Python `str.lower()` acts on
the ASCII inputs this program handles. -/
def pyCharLower (c : Char) : Char :=
  if 'A' ≤ c ∧ c ≤ 'Z' then Char.ofNat (c.toNat + 32) else c

/-- Python `s.lower()` (ASCII). -/
def pyLower (s : String) : String :=
  String.mk (s.toList.map pyCharLower)

/- JSON whitespace accepted between tokens by `json.loads`. -/
def jsonWsChar (c : Char) : Bool :=
  c == ' ' || c == '\t' || c == '\n' || c == '\r'

def skipWs : List Char → List Char
  | [] => []
  | c :: cs => if jsonWsChar c then skipWs cs else c :: cs

def hexDigitVal (c : Char) : Option Nat :=
  if '0' ≤ c ∧ c ≤ '9' then some (c.toNat - '0'.toNat)
  else if 'a' ≤ c ∧ c ≤ 'f' then some (c.toNat - 'a'.toNat + 10)
  else if 'A' ≤ c ∧ c ≤ 'F' then some (c.toNat - 'A'.toNat + 10)
  else Option.none

/-- Body of a JSON string after the opening quote: returns the decoded
characters and the rest of the input after the closing quote. -/
def parseStringBody : Nat → List Char → Option (List Char × List Char)
  | 0, _ => Option.none
  | _ + 1, [] => Option.none
  | fuel + 1, c :: cs =>
    if c = '"' then some ([], cs)
    else if c = '\\' then
      match cs with
      | [] => Option.none
      | e :: cs' =>
        let simple : Option Char :=
          if e = '"' then some '"'
          else if e = '\\' then some '\\'
          else if e = '/' then some '/'
          else if e = 'b' then some '\x08'
          else if e = 'f' then some '\x0c'
          else if e = 'n' then some '\n'
          else if e = 'r' then some '\r'
          else if e = 't' then some '\t'
          else Option.none
        match simple with
        | some ch =>
          (parseStringBody fuel cs').map (fun p => (ch :: p.1, p.2))
        | Option.none =>
          if e = 'u' then
            match cs' with
            | h1 :: h2 :: h3 :: h4 :: cs'' =>
              match hexDigitVal h1, hexDigitVal h2, hexDigitVal h3, hexDigitVal h4 with
              | some a, some b, some c3, some d =>
                let n := ((a * 16 + b) * 16 + c3) * 16 + d
                (parseStringBody fuel cs'').map
                  (fun p => (Char.ofNat n :: p.1, p.2))
              | _, _, _, _ => Option.none
            | _ => Option.none
          else Option.none
    else if c.toNat < 0x20 then Option.none
    else (parseStringBody fuel cs).map (fun p => (c :: p.1, p.2))

/-- Digits of a JSON integer: `0` alone or a nonzero first digit. -/
def parseDigits : List Char → Option (List Char × List Char)
  | [] => Option.none
  | c :: cs =>
    if c = '0' then some ([c], cs)
    else if c.isDigit then
      let digs := (c :: cs).takeWhile Char.isDigit
      some (digs, (c :: cs).dropWhile Char.isDigit)
    else Option.none

def digitsToNat (ds : List Char) : Nat :=
  ds.foldl (fun acc c => acc * 10 + (c.toNat - '0'.toNat)) 0

/-- JSON integer literal (model restriction: fraction/exponent suffixes are
rejected, so such inputs fall through to the parse-failure path). -/
def parseIntLit (cs : List Char) : Option (PyVal × List Char) :=
  let (neg, cs') := match cs with
    | '-' :: rest => (true, rest)
    | _ => (false, cs)
  match parseDigits cs' with
  | Option.none => Option.none
  | some (digs, rest) =>
    match rest with
    | '.' :: _ => Option.none
    | 'e' :: _ => Option.none
    | 'E' :: _ => Option.none
    | _ =>
      let n : Int := Int.ofNat (digitsToNat digs)
      some (.int (if neg then -n else n), rest)

mutual

/-- One JSON value, consuming leading whitespace; fuel-indexed
recursive-descent parser modelling Python `json.loads` grammar. -/
def parseValue : Nat → List Char → Option (PyVal × List Char)
  | 0, _ => Option.none
  | fuel + 1, cs =>
    match skipWs cs with
    | [] => Option.none
    | c :: rest =>
      if c = '"' then
        (parseStringBody fuel rest).map (fun p => (.str (String.mk p.1), p.2))
      else if c = '\x7b' then
        parseObjectFirst fuel rest
      else if c = '[' then
        parseArrayFirst fuel rest
      else if c = 't' then
        if "rue".toList.isPrefixOf rest then some (.bool true, rest.drop 3)
        else Option.none
      else if c = 'f' then
        if "alse".toList.isPrefixOf rest then some (.bool false, rest.drop 4)
        else Option.none
      else if c = 'n' then
        if "ull".toList.isPrefixOf rest then some (.none, rest.drop 3)
        else Option.none
      else if c = '-' ∨ c.isDigit then parseIntLit (c :: rest)
      else Option.none

/-- Object body right after `{`: empty object or first member. -/
def parseObjectFirst : Nat → List Char → Option (PyVal × List Char)
  | 0, _ => Option.none
  | fuel + 1, cs =>
    match skipWs cs with
    | [] => Option.none
    | c :: rest =>
      if c = '\x7d' then some (.dict [], rest)
      else parseMembers (fuel) [] (c :: rest)

/-- Members of an object, starting at a key; accumulates with Python dict
insertion (duplicate keys keep the last value). -/
def parseMembers : Nat → List (String × PyVal) → List Char →
    Option (PyVal × List Char)
  | 0, _, _ => Option.none
  | fuel + 1, acc, cs =>
    match skipWs cs with
    | '"' :: rest =>
      match parseStringBody fuel rest with
      | Option.none => Option.none
      | some (key, afterKey) =>
        match skipWs afterKey with
        | ':' :: afterColon =>
          match parseValue fuel afterColon with
          | Option.none => Option.none
          | some (v, afterVal) =>
            let acc' := pyDictInsert acc (String.mk key) v
            match skipWs afterVal with
            | ',' :: afterComma => parseMembers fuel acc' afterComma
            | '\x7d' :: afterBrace => some (.dict acc', afterBrace)
            | _ => Option.none
        | _ => Option.none
    | _ => Option.none

/-- Array body right after `[`: empty array or first element. -/
def parseArrayFirst : Nat → List Char → Option (PyVal × List Char)
  | 0, _ => Option.none
  | fuel + 1, cs =>
    match skipWs cs with
    | [] => Option.none
    | c :: rest =>
      if c = ']' then some (.list [], rest)
      else parseElements fuel [] (c :: rest)

/-- Elements of an array, starting at a value. -/
def parseElements : Nat → List PyVal → List Char → Option (PyVal × List Char)
  | 0, _, _ => Option.none
  | fuel + 1, acc, cs =>
    match parseValue fuel cs with
    | Option.none => Option.none
    | some (v, afterVal) =>
      match skipWs afterVal with
      | ',' :: afterComma => parseElements fuel (acc ++ [v]) afterComma
      | ']' :: afterBracket => some (.list (acc ++ [v]), afterBracket)
      | _ => Option.none

end

/-- Python `json.loads` on the modelled grammar: a single JSON value with
optional surrounding whitespace and nothing else. -/
def jsonLoads (s : String) : Option PyVal :=
  match parseValue (4 * s.toList.length + 8) s.toList with
  | some (v, rest) => if (skipWs rest).isEmpty then some v else Option.none
  | Option.none => Option.none

/-- Escape of one character inside a JSON string literal, as produced by
Python `json.dumps(..., ensure_ascii=False)`. -/
def jsonEscapeChar (c : Char) : List Char :=
  if c = '"' then ['\\', '"']
  else if c = '\\' then ['\\', '\\']
  else if c = '\n' then ['\\', 'n']
  else if c = '\t' then ['\\', 't']
  else if c = '\r' then ['\\', 'r']
  else if c = '\x08' then ['\\', 'b']
  else if c = '\x0c' then ['\\', 'f']
  else if c.toNat < 0x20 then
    ['\\', 'u', '0', '0',
     (Nat.digitChar (c.toNat / 16)), (Nat.digitChar (c.toNat % 16))]
  else [c]

/-- JSON string literal for `s` (quotes included). -/
def jsonDumpsStr (s : String) : String :=
  "\"" ++ String.mk (s.toList.flatMap jsonEscapeChar) ++ "\""

mutual

/-- Python `json.dumps(v, ensure_ascii=False)` with the default separators
`", "` and `": "`. -/
def jsonDumps : PyVal → String
  | .str s => jsonDumpsStr s
  | .int n => toString n
  | .bool b => if b then "true" else "false"
  | .none => "null"
  | .list xs => "[" ++ String.intercalate ", " (jsonDumpsListAux xs) ++ "]"
  | .dict kvs =>
    "\x7b" ++ String.intercalate ", " (jsonDumpsDictAux kvs) ++ "\x7d"

def jsonDumpsListAux : List PyVal → List String
  | [] => []
  | v :: vs => jsonDumps v :: jsonDumpsListAux vs

def jsonDumpsDictAux : List (String × PyVal) → List String
  | [] => []
  | (k, v) :: kvs => (jsonDumpsStr k ++ ": " ++ jsonDumps v) :: jsonDumpsDictAux kvs

end

def indentSpaces (n : Nat) : String := String.mk (List.replicate n ' ')

mutual

/-- Python `json.dumps(v, indent=2, ensure_ascii=False)` at nesting level
`lvl` (with `indent`, the item separator becomes `","` + newline). -/
def jsonDumpsIndent2 (lvl : Nat) : PyVal → String
  | .str s => jsonDumpsStr s
  | .int n => toString n
  | .bool b => if b then "true" else "false"
  | .none => "null"
  | .list [] => "[]"
  | .list (x :: xs) =>
    "[\n" ++
      String.intercalate ",\n"
        (jsonDumpsIndent2ListAux (lvl + 1) (x :: xs)) ++
      "\n" ++ indentSpaces (2 * lvl) ++ "]"
  | .dict [] => "\x7b\x7d"
  | .dict (kv :: kvs) =>
    "\x7b\n" ++
      String.intercalate ",\n"
        (jsonDumpsIndent2DictAux (lvl + 1) (kv :: kvs)) ++
      "\n" ++ indentSpaces (2 * lvl) ++ "\x7d"

def jsonDumpsIndent2ListAux (lvl : Nat) : List PyVal → List String
  | [] => []
  | v :: vs =>
    (indentSpaces (2 * lvl) ++ jsonDumpsIndent2 lvl v) ::
      jsonDumpsIndent2ListAux lvl vs

def jsonDumpsIndent2DictAux (lvl : Nat) : List (String × PyVal) → List String
  | [] => []
  | (k, v) :: kvs =>
    (indentSpaces (2 * lvl) ++ jsonDumpsStr k ++ ": " ++ jsonDumpsIndent2 lvl v) ::
      jsonDumpsIndent2DictAux lvl kvs

end

/-- Fallback record built by `parse_structured_response` when both JSON
parses fail (`agents.py` lines 169-178). -/
def fallbackRecord (answer : String) : PyVal :=
  .dict
    [("answer", .str answer),
     ("provisional_diagnosis", .str "unclear"),
     ("differentials", .list []),
     ("followups", .list []),
     ("plan", .str ""),
     ("triage", .str ""),
     ("risk_flags", .str ""),
     ("confidence", .str "0.0")]

/-- Text the function works on for a non-dict input: `text = content or ""`,
then `json.dumps` if it is not a string (`json.dumps` is total on the
modelled universe, so the `except` around it is dead here). -/
def psrText (content : PyVal) : String :=
  match (if pyTruthy content then content else .str "") with
  | .str s => s
  | other => jsonDumps other

/-- Fence cleanup applied between the two parse attempts
(`agents.py` lines 161-165): strip whitespace, and if the text starts with
a code fence, strip backticks and an optional leading `json` tag. -/
def cleanFence (text : String) : String :=
  let cleaned := pyStrip text
  if strStartsWith cleaned "```" then
    let cleaned := pyStrip (pyStripChar cleaned '\x60')
    if strStartsWith cleaned "json" then pyStrip (strDrop cleaned ("json".length))
    else cleaned
  else cleaned

/-- Embedding of `parse_structured_response` (`agents.py` lines 148-178):
dict inputs pass through; otherwise parse as JSON, then parse the
fence-cleaned text, then fall back to a fixed record. -/
def parse_structured_response (content : PyVal) : PyVal :=
  match content with
  | .dict kvs => .dict kvs
  | _ =>
    let text := psrText content
    match jsonLoads text with
    | some v => v
    | Option.none =>
      let cleaned := cleanFence text
      match jsonLoads cleaned with
      | some v => v
      | Option.none => fallbackRecord cleaned

/-- Exceptions relevant to the coercion layer: `json.JSONDecodeError`
versus any other exception. -/
inductive PyExc where
  | jsonDecodeError
  | otherExc (what : String)
deriving DecidableEq

/-- Exception-raising view of `json.loads` (it raises `JSONDecodeError`
on string input it cannot parse). -/
def jsonLoadsE (s : String) : Except PyExc PyVal :=
  match jsonLoads s with
  | some v => .ok v
  | Option.none => .error .jsonDecodeError

/-- Exception-explicit embedding of `parse_structured_response`: every
fallible operation returns `Except`, the outer handler catches only
`JSONDecodeError` and the inner handler catches every exception, exactly
as the `try`/`except` blocks in the source.  An `.error` result would mean
an exception escaping the function. -/
def parse_structured_responseE (content : PyVal) : Except PyExc PyVal :=
  match content with
  | .dict kvs => .ok (.dict kvs)
  | _ =>
    let text := psrText content
    match jsonLoadsE text with
    | .ok v => .ok v
    | .error e =>
      match e with
      | .jsonDecodeError =>
        let cleaned := cleanFence text
        match jsonLoadsE cleaned with
        | .ok v => .ok v
        | .error _ => .ok (fallbackRecord cleaned)
      | other => .error other

/-- String-typed check on a `PyVal`. -/
def isStrVal : PyVal → Bool
  | .str _ => true
  | _ => false

/-- List-of-strings check on a `PyVal`. -/
def isStrListVal : PyVal → Bool
  | .list xs => xs.all isStrVal
  | _ => false

/-- Field check for one required `ResponseSchema` key. -/
def fieldOk (kvs : List (String × PyVal)) (k : String) (ty : PyVal → Bool) :
    Bool :=
  match pyDictGet kvs k with
  | some v => ty v
  | Option.none => false

/-- Value is a record carrying all 8 required `ResponseSchema` fields with
the schema types (strings, and string arrays for `differentials` and
`followups`). -/
def hasRequiredSchemaFields (v : PyVal) : Bool :=
  match v with
  | .dict kvs =>
    fieldOk kvs "answer" isStrVal &&
    fieldOk kvs "provisional_diagnosis" isStrVal &&
    fieldOk kvs "differentials" isStrListVal &&
    fieldOk kvs "followups" isStrListVal &&
    fieldOk kvs "plan" isStrVal &&
    fieldOk kvs "triage" isStrVal &&
    fieldOk kvs "risk_flags" isStrVal &&
    fieldOk kvs "confidence" isStrVal
  | _ => false

/-- Human-readable schema used in prompts (`RESPONSE_SCHEMA_DOC`). -/
def RESPONSE_SCHEMA_DOC : PyVal :=
  .dict
    [("answer", .str "Summarize likely issue + next steps."),
     ("provisional_diagnosis", .str "Best-fit label or \x27unclear\x27"),
     ("differentials", .list [.str "Up to 3 alternatives"]),
     ("followups", .list [.str "3-5 targeted questions"]),
     ("plan", .str "Home care / OTC / clinician asks"),
     ("triage", .str "When to seek urgent care"),
     ("risk_flags", .str "Red flags detected"),
     ("confidence", .str "0.0-1.0 conservative")]

/-- Enforced structured-output schema sent with every completion request
(`RESPONSE_FORMAT`). -/
def RESPONSE_FORMAT : PyVal :=
  .dict
    [("type", .str "json_schema"),
     ("json_schema", .dict
       [("name", .str "doctorai_agent_reply"),
        ("schema", .dict
          [("type", .str "object"),
           ("additionalProperties", .bool false),
           ("properties", .dict
             [("answer", .dict [("type", .str "string")]),
              ("provisional_diagnosis", .dict [("type", .str "string")]),
              ("differentials", .dict
                [("type", .str "array"),
                 ("items", .dict [("type", .str "string")]),
                 ("maxItems", .int 3)]),
              ("followups", .dict
                [("type", .str "array"),
                 ("items", .dict [("type", .str "string")]),
                 ("maxItems", .int 5)]),
              ("plan", .dict [("type", .str "string")]),
              ("triage", .dict [("type", .str "string")]),
              ("risk_flags", .dict [("type", .str "string")]),
              ("confidence", .dict [("type", .str "string")])]),
           ("required", .list
             [.str "answer", .str "provisional_diagnosis",
              .str "differentials", .str "followups", .str "plan",
              .str "triage", .str "risk_flags", .str "confidence"])]),
        ("strict", .bool true)])]

/-- System-prompt template of `agents.py` with its three persona fields and
the serialized schema interpolated (`SYSTEM_PROMPT_TEMPLATE.format`). -/
def systemPromptTemplate (title specialties tone schema_json : String) :
    String :=
  "You are " ++ title ++ ". Specialty: " ++ specialties ++ ". Tone: " ++
    tone ++ ". Default language: English unless the user changes it.\n" ++
  "You are part of a Mixture-of-Experts ensemble and must deliver structured JSON only.\n" ++
  "Always consider dermatology red flags (fever, rapidly spreading rash, mucosal involvement, pain, immunosuppression) " ++
  "and therapy safety flags (self-harm, harm to others, psychosis, withdrawal).\n" ++
  "State uncertainty explicitly. Never provide definitive diagnoses or prescriptions; recommend clinician follow-up. " ++
  "Ask for missing critical data via followups.\n" ++
  "Reply in JSON matching: " ++ schema_json

/-- Fixed verifier persona prompt (`VERIFICATION_PROMPT`). -/
def VERIFICATION_PROMPT : String :=
  "You are a safety and quality verifier (OpenEvolve style).\n" ++
  "Given the user request, the agent JSON output, and optional image context, ensure the reply is safe, clinically humble, " ++
  "and follows schema keys exactly. Fix hallucinated drug dosing, add disclaimers, and re-rank differentials if needed. " ++
  "Return corrected JSON only. If content is unsafe or missing, produce conservative guidance with followups. " ++
  "Cap confidence unless there is strong objective evidence."

/-- Persona definition (`AgentProfile` dataclass). -/
structure AgentProfile where
  key : String
  title : String
  description : String
  tone : String
  specialties : List String
deriving DecidableEq, Repr

/-- Derived system prompt of a persona (`AgentProfile.system_prompt`),
interpolating the `indent=2` serialization of the schema doc. -/
def AgentProfile.system_prompt (p : AgentProfile) : String :=
  systemPromptTemplate p.title (String.intercalate ", " p.specialties)
    p.tone (jsonDumpsIndent2 0 RESPONSE_SCHEMA_DOC)

/-- Dermatologist persona (`AGENT_PROFILES["dermatologist"]`). -/
def dermatologistProfile : AgentProfile :=
  { key := "dermatologist"
    title := "Dermatology Attending Physician"
    description := "Focus on rashes, lesions, acne, inflammatory skin conditions, infections, and wound healing."
    tone := "precise, reassuring, avoids alarmism"
    specialties :=
      ["medical dermatology", "infectious disease differentials",
       "dermoscopy heuristics", "skin care routines"] }

/-- Therapist persona (`AGENT_PROFILES["therapist"]`). -/
def therapistProfile : AgentProfile :=
  { key := "therapist"
    title := "Generalist Therapist"
    description := "Focus on emotional support, CBT/DBT inspired coping, brief assessment of risk."
    tone := "supportive, concise, trauma-informed"
    specialties := ["anxiety", "depression", "stress management", "sleep hygiene"] }

/-- Static persona registry (`AGENT_PROFILES`). -/
def AGENT_PROFILES : List (String × AgentProfile) :=
  [("dermatologist", dermatologistProfile), ("therapist", therapistProfile)]

/-- Python `x or y` on an optional string operand (`None` and `""` are
falsey). -/
def pyOrStr (a : Option String) (b : String) : String :=
  match a with
  | some s => if s = "" then b else s
  | Option.none => b

/-- Key computed by `run_agent` line 288:
`(agent_key or settings.default_agent or "dermatologist").lower()`. -/
def resolveKey (agent_key : Option String) (default_agent : String) : String :=
  pyLower (pyOrStr agent_key
    (if default_agent = "" then "dermatologist" else default_agent))

/-- Profile lookup of `run_agent` line 289:
`AGENT_PROFILES.get(key, AGENT_PROFILES["dermatologist"])`. -/
def resolveProfile (agent_key : Option String) (default_agent : String) :
    AgentProfile :=
  let key := resolveKey agent_key default_agent
  ((AGENT_PROFILES.find? (fun kv => kv.1 = key)).map (fun kv => kv.2)).getD
    dermatologistProfile

/- Base64 and data-URL encoding (`b64_from_upload`). -/

def b64Alphabet : List Char :=
  "ABCDEFGHIJKLMNOPQRSTUVWXYZabcdefghijklmnopqrstuvwxyz0123456789+/".toList

def b64Char (n : Nat) : Char := b64Alphabet.getD n 'A'

/-- Standard base64 of a byte list (bytes as naturals below 256). -/
def b64encodeList : List Nat → List Char
  | [] => []
  | [a] =>
    [b64Char (a / 4), b64Char (a % 4 * 16), '=', '=']
  | [a, b] =>
    [b64Char (a / 4), b64Char (a % 4 * 16 + b / 16), b64Char (b % 16 * 4), '=']
  | a :: b :: c :: rest =>
    b64Char (a / 4) :: b64Char (a % 4 * 16 + b / 16) ::
      b64Char (b % 16 * 4 + c / 64) :: b64Char (c % 64) :: b64encodeList rest

def b64encode (bs : List Nat) : String := String.mk (b64encodeList bs)

/-- Python `pathlib.Path(name).suffix`: extension of the last path
component, empty when the only dot is leading or trailing. -/
def pathSuffix (filename : String) : String :=
  let cs := (filename.toList.reverse.takeWhile (fun c => c ≠ '/')).reverse
  match cs.reverse.findIdx? (fun c => c == '.') with
  | some r =>
    let i := cs.length - 1 - r
    if 0 < i ∧ i < cs.length - 1 then String.mk (cs.drop i) else ""
  | Option.none => ""

/-- Extension-to-MIME table of `b64_from_upload`. -/
def mimeTable : List (String × String) :=
  [(".png", "image/png"), (".jpg", "image/jpeg"), (".jpeg", "image/jpeg"),
   (".gif", "image/gif"), (".webp", "image/webp"), (".heic", "image/heic")]

/-- Embedding of `b64_from_upload` (`agents.py` lines 131-145): data URL
with a MIME type inferred from the filename suffix, defaulting to JPEG. -/
def b64_from_upload (file_data : List Nat) (filename : Option String) :
    String :=
  let mime := "image/jpeg"
  let mime :=
    match filename with
    | some f =>
      if f = "" then mime
      else
        let suffix := pyLower (pathSuffix f)
        ((mimeTable.find? (fun kv => kv.1 = suffix)).map (fun kv => kv.2)).getD
          mime
    | Option.none => mime
  "data:" ++ mime ++ ";base64," ++ b64encode file_data

/- Conversation messages sent to the chat endpoint. -/

/-- Typed content part of a user turn (`{"type": "text", ...}` or
`{"type": "image_url", ...}` dicts in the source). -/
inductive Part where
  | text : String → Part
  | image_url : String → Part
deriving DecidableEq, Repr

/-- Content of a message: a plain string or a list of typed parts. -/
inductive MsgContent where
  | text : String → MsgContent
  | parts : List Part → MsgContent
deriving DecidableEq, Repr

/-- One conversation turn as assembled by `run_agent`. -/
structure ChatMsg where
  role : String
  content : MsgContent
deriving DecidableEq, Repr

/-- Truthiness of the optional byte payload (`if image_bytes:`): present
and non-empty. -/
def pyBytesTruthy : Option (List Nat) → Bool
  | some b => ¬b.isEmpty
  | Option.none => false

/-- Embedding of `_build_user_parts` (`agents.py` lines 199-203). -/
def build_user_parts (question : String) (image_bytes : Option (List Nat))
    (image_filename : Option String) : List Part :=
  let parts := [Part.text (pyStrip question)]
  if pyBytesTruthy image_bytes then
    parts ++ [Part.image_url (b64_from_upload (image_bytes.getD []) image_filename)]
  else parts

/-- History entry handed to the pipeline: a dict that may lack the
`role`/`content` keys (`item.get(...)`). -/
structure HistItem where
  roleKey : Option String
  contentKey : Option String
deriving DecidableEq, Repr

/-- Filter of `_build_history`: role in `{"user", "assistant"}` and truthy
content. -/
def histValid (it : HistItem) : Bool :=
  (it.roleKey == some "user" || it.roleKey == some "assistant") &&
  (match it.contentKey with
   | some c => c ≠ ""
   | Option.none => false)

/-- Last `n` elements of a list (Python `xs[-n:]`). -/
def takeLast (n : Nat) (xs : List α) : List α :=
  xs.drop (xs.length - n)

/-- Message built from a kept history entry
(`{"role": item["role"], "content": item["content"]}`). -/
def histToMsg (it : HistItem) : ChatMsg :=
  { role := it.roleKey.getD "", content := .text (it.contentKey.getD "") }

/-- Embedding of `_build_history` (`agents.py` lines 206-213): nothing for
a falsey history, else the last 8 entries filtered to valid ones. -/
def build_history (history : Option (List HistItem)) : List ChatMsg :=
  match history with
  | Option.none => []
  | some h =>
    if h.isEmpty then []
    else ((takeLast 8 h).filter histValid).map histToMsg

/- Completion invoker and pipeline. -/

/-- Decimal float literal of the source (`0.4` is `⟨4, 1⟩`, i.e. 4·10⁻¹);
the program only ever compares the literals it passes, so floats are
modelled structurally by their decimal notation. -/
structure PyFloat where
  mant : Int
  exp10 : Nat
deriving DecidableEq, Repr

/-- Literal `0.4` (primary-call sampling temperature). -/
def temp04 : PyFloat := ⟨4, 1⟩

/-- Literal `0.2` (verifier-call sampling temperature). -/
def temp02 : PyFloat := ⟨2, 1⟩

/-- Keyword arguments assembled for `client.chat.completions.create`
(`params` dict of `_chat_with_fallback`); optional keys are `Option`. -/
structure ChatParams where
  model : String
  messages : List ChatMsg
  max_completion_tokens : Nat
  response_format : PyVal
  temperature : Option PyFloat
  reasoning_effort : Option String

/-- Exception raised by the remote call: `openai.BadRequestError` with its
message text, or any other exception. -/
inductive ApiError where
  | badRequest : String → ApiError
  | otherErr : String → ApiError
deriving DecidableEq, Repr

/-- Reply message of one completion choice: optional provider-parsed
structured value (`None` when absent) and the `content` field. -/
structure ReplyMessage where
  parsed : PyVal
  content : PyVal

/-- One completion choice (`completion.choices[i]`). -/
structure Choice where
  message : ReplyMessage

/-- Completion object returned by the remote endpoint. -/
structure Completion where
  choices : List Choice

/-- Remote endpoint as an oracle: result of the `n`-th
`client.chat.completions.create` call of a run, given its parameters
(matching the order-based stub clients of the repository tests). -/
def Oracle : Type := Nat → ChatParams → Except ApiError Completion

/-- Outcome of a (possibly retrying) invocation: the requests issued in
order, and the final result or propagated exception. -/
structure CallOutcome (α : Type) where
  calls : List ChatParams
  result : Except ApiError α

/-- Parameter dict built by `_chat_with_fallback` lines 225-234:
`temperature` included only when not `None`, `reasoning_effort` only when
the configured value is truthy. -/
def buildParams (model : String) (messages : List ChatMsg)
    (temperature : Option PyFloat) (max_tokens : Nat)
    (reasoning_effort_setting : Option String) : ChatParams :=
  { model := model
    messages := messages
    max_completion_tokens := max_tokens
    response_format := RESPONSE_FORMAT
    temperature := temperature
    reasoning_effort :=
      match reasoning_effort_setting with
      | some s => if s = "" then Option.none else some s
      | Option.none => Option.none }

/-- Retry parameters: the dict comprehension dropping the keys
`temperature` and `reasoning_effort` and keeping everything else. -/
def stripOptionalParams (p : ChatParams) : ChatParams :=
  { p with temperature := Option.none, reasoning_effort := Option.none }

/-- Predicate of `_chat_with_fallback` lines 239-242 on a caught
`BadRequestError`: the lowercased message contains `"unsupported"`
together with `"temperature"` or `"reasoning_effort"`. -/
def isUnsupportedParamError : ApiError → Bool
  | .badRequest msg =>
    let m := pyLower msg
    (strContainsSub m "temperature" && strContainsSub m "unsupported") ||
    (strContainsSub m "reasoning_effort" && strContainsSub m "unsupported")
  | .otherErr _ => false

/-- Embedding of `_chat_with_fallback` (`agents.py` lines 216-253): one
remote call; on a matching `BadRequestError` exactly one retry with the
two optional parameters removed; any other error propagates.  `idx` is the
position of this call within the run. -/
def chat_with_fallback (oracle : Oracle) (idx : Nat) (model : String)
    (messages : List ChatMsg) (temperature : Option PyFloat)
    (max_tokens : Nat) (reasoning_effort_setting : Option String) :
    CallOutcome Completion :=
  let params := buildParams model messages temperature max_tokens
    reasoning_effort_setting
  match oracle idx params with
  | .ok c => ⟨[params], .ok c⟩
  | .error e =>
    if isUnsupportedParamError e then
      let retry_params := stripOptionalParams params
      ⟨[params, retry_params], oracle (idx + 1) retry_params⟩
    else ⟨[params], .error e⟩

/-- Embedding of `_extract_text_content` (`agents.py` lines 181-196) on the
modelled value universe: a string content is returned as-is; a list keeps
the text of dict items with `type == "text"` and truthy text.  (Attribute
bearing non-dict items, and non-string `text` values - which would make
the original crash in `"".join` - lie outside the modelled universe.) -/
def extract_text_content (content : PyVal) : String :=
  match content with
  | .str s => s
  | .list items =>
    String.join (items.filterMap (fun item =>
      match item with
      | .dict kvs =>
        match pyDictGet kvs "type", pyDictGet kvs "text" with
        | some (.str "text"), some (.str t) =>
          if t ≠ "" then some t else Option.none
        | _, _ => Option.none
      | _ => Option.none))
  | _ => ""

/-- Reply coercion of `_chat_with_schema` lines 271-275: prefer a truthy
provider-parsed value, else coerce the extracted text. -/
def coerceReply (m : ReplyMessage) : PyVal :=
  if pyTruthy m.parsed then parse_structured_response m.parsed
  else parse_structured_response (.str (extract_text_content m.content))

/-- Embedding of `_chat_with_schema` (`agents.py` lines 256-275):
invoke with fallback, index into `choices[0]` (an empty choices list would
raise `IndexError`), and coerce the reply. -/
def chat_with_schema (oracle : Oracle) (idx : Nat) (model : String)
    (messages : List ChatMsg) (temperature : PyFloat) (max_tokens : Nat)
    (reasoning_effort_setting : Option String) : CallOutcome PyVal :=
  let co := chat_with_fallback oracle idx model messages (some temperature)
    max_tokens reasoning_effort_setting
  match co.result with
  | .error e => ⟨co.calls, .error e⟩
  | .ok completion =>
    match completion.choices with
    | [] => ⟨co.calls, .error (.otherErr "IndexError")⟩
    | choice :: _ => ⟨co.calls, .ok (coerceReply choice.message)⟩

/-- Process configuration fields read by the pipeline (`config.Settings`);
`openai_api_key` is only used to construct a default client, which the
embedding always receives explicitly as the oracle. -/
structure Settings where
  openai_model : String
  openai_verifier_model : String
  reasoning_effort : Option String
  default_agent : String
deriving DecidableEq, Repr

/-- Combined result of a run (`run_agent` return dict, with the `meta`
sub-dict flattened into its two model-identifier fields). -/
structure PipelineResult where
  agent : String
  title : String
  analysis_raw : PyVal
  verified : PyVal
  meta_model : String
  meta_verifier : String

/-- Primary message list assembled by `run_agent` lines 291-294: system
persona turn, trimmed history, user turn with text and optional image. -/
def primaryMessages (profile : AgentProfile) (question : String)
    (image_bytes : Option (List Nat)) (image_filename : Option String)
    (history : Option (List HistItem)) : List ChatMsg :=
  ⟨"system", .text profile.system_prompt⟩ ::
    build_history history ++
    [⟨"user", .parts (build_user_parts question image_bytes image_filename)⟩]

/-- Verifier user-turn text of `run_agent` lines 322-327. -/
def verifierText (question : String) (image_bytes : Option (List Nat))
    (structured : PyVal) : String :=
  "User question: " ++ pyStrip question ++ "\n" ++
  "Image attached: " ++ (if pyBytesTruthy image_bytes then "yes" else "no") ++ "\n" ++
  "Agent output JSON: " ++ jsonDumps structured

/-- Verifier message list of `run_agent` lines 315-334: verification system
prompt and one user turn with the summary text plus the image when one was
supplied. -/
def verifierMessages (question : String) (image_bytes : Option (List Nat))
    (image_filename : Option String) (structured : PyVal) : List ChatMsg :=
  [⟨"system", .text VERIFICATION_PROMPT⟩,
   ⟨"user", .parts
     ([Part.text (verifierText question image_bytes structured)] ++
      (if pyBytesTruthy image_bytes then
        [Part.image_url (b64_from_upload (image_bytes.getD []) image_filename)]
      else []))⟩]

/-- Embedding of `run_agent` (`agents.py` lines 278-350): resolve persona,
assemble primary messages, primary call at temperature 0.4 / budget 800,
coerce, assemble verifier messages, verifier call at temperature 0.2 /
budget 600, coerce, assemble the result.  The log emission (lines 296-305)
has no effect on data flow and is not modelled. -/
def run_agent (oracle : Oracle) (st : Settings) (question : String)
    (agent_key : Option String) (image_bytes : Option (List Nat))
    (image_filename : Option String) (history : Option (List HistItem)) :
    CallOutcome PipelineResult :=
  let profile := resolveProfile agent_key st.default_agent
  let messages := primaryMessages profile question image_bytes image_filename
    history
  let primary := chat_with_schema oracle 0 st.openai_model messages temp04
    800 st.reasoning_effort
  match primary.result with
  | .error e => ⟨primary.calls, .error e⟩
  | .ok structured =>
    let verifier := chat_with_schema oracle primary.calls.length
      st.openai_verifier_model
      (verifierMessages question image_bytes image_filename structured)
      temp02 600 st.reasoning_effort
    match verifier.result with
    | .error e => ⟨primary.calls ++ verifier.calls, .error e⟩
    | .ok verified =>
      ⟨primary.calls ++ verifier.calls,
       .ok { agent := profile.key
             title := profile.title
             analysis_raw := structured
             verified := verified
             meta_model := st.openai_model
             meta_verifier := st.openai_verifier_model }⟩

/- Concrete fixtures used by witnesses and counterexamples. -/

/-- Truthiness of an `Except` outcome. -/
def isOkResult : Except ApiError α → Bool
  | .ok _ => true
  | .error _ => false

/-- Configuration mirroring the defaults of `config.Settings`. -/
def stW : Settings :=
  ⟨"gpt-5.1-2025-11-13", "gpt-5.1-2025-11-13", some "medium", "dermatologist"⟩

/-- Reply whose provider-parsed payload is a truthy record. -/
def replyW : ReplyMessage := ⟨fallbackRecord "ok", PyVal.none⟩

def choiceW : Choice := ⟨replyW⟩

def completionW : Completion := ⟨[choiceW]⟩

/-- Endpoint that succeeds on every call. -/
def oracleAllOk : Oracle := fun _ _ => .ok completionW

/-- Endpoint that rejects every call with a non-matching provider error. -/
def oracleRejectAll : Oracle := fun _ _ => .error (.otherErr "rate limit")

/-- Endpoint whose first call fails with an unsupported-temperature bad
request and whose later calls succeed. -/
def oracleTempRetry : Oracle := fun i _ =>
  if i = 0 then .error (.badRequest "Unsupported value: \x27temperature\x27")
  else .ok completionW

/-- Endpoint whose first call fails with an unsupported-parameter bad
request and whose retry fails with an unrelated error. -/
def oracleRetryBoom : Oracle := fun i _ =>
  if i = 0 then .error (.badRequest "unsupported parameter: reasoning_effort")
  else .error (.otherErr "boom")

/-- History entry kept by the trimming filter. -/
def validHistItem : HistItem := ⟨some "user", some "hello"⟩

/-- History entry dropped by the trimming filter (role `"other"`). -/
def otherHistItem : HistItem := ⟨some "other", some "x"⟩

/-- Nine-entry history: one valid entry followed by eight invalid ones. -/
def hist9 : List HistItem := validHistItem :: List.replicate 8 otherHistItem

/-- Formalisation of the words of the history claim (not of the code): the
up-to-8 most recent history entries that have role `user`/`assistant` and
non-empty content, i.e. filter first, then keep the last 8. -/
def claimedHistoryTrim (h : List HistItem) : List ChatMsg :=
  (takeLast 8 (h.filter histValid)).map histToMsg

/- Theorems. -/

/-- Helper: the fallback record always carries the 8 required fields with
the schema types. -/
theorem hasRequiredSchemaFields_fallback (s : String) :
    hasRequiredSchemaFields (fallbackRecord s) = true := rfl

/-- Helper: for a string input, the working text of
`parse_structured_response` is that string itself. -/
theorem psrText_str (s : String) : psrText (.str s) = s := by
  by_cases h : s = ""
  · subst h; rfl
  · simp [psrText, pyTruthy, h]

/-- C1 counterexample: the claim promises a complete 8-field record for
every input, but the well-formed JSON object text `"{}"` is parsed and
returned as the empty record, which carries none of the required fields. -/
theorem claim1_counterexample :
    jsonLoads "\x7b\x7d" = some (.dict []) ∧
    parse_structured_response (.str "\x7b\x7d") = .dict [] ∧
    hasRequiredSchemaFields (.dict []) = false :=
  ⟨rfl, rfl, rfl⟩

/-- C1 (amended): only the fallback path guarantees the full record — for
every non-record input whose working text fails JSON parsing both as-is
and after fence-stripping, the result carries all 8 required fields with
the correct types; structured records and successfully parsed JSON are
returned as-is. -/
theorem claim1_fallback_has_all_fields (content : PyVal)
    (h0 : ∀ kvs, content ≠ .dict kvs)
    (h1 : jsonLoads (psrText content) = Option.none)
    (h2 : jsonLoads (cleanFence (psrText content)) = Option.none) :
    hasRequiredSchemaFields (parse_structured_response content) = true := by
  cases content with
  | dict kvs => exact absurd rfl (h0 kvs)
  | str s =>
    simp only [parse_structured_response]
    rw [h1, h2]
    rfl
  | int n =>
    simp only [parse_structured_response]
    rw [h1, h2]
    rfl
  | bool b =>
    simp only [parse_structured_response]
    rw [h1, h2]
    rfl
  | none =>
    simp only [parse_structured_response]
    rw [h1, h2]
    rfl
  | list xs =>
    simp only [parse_structured_response]
    rw [h1, h2]
    rfl

/-- C1 witness: the hypotheses of the amended theorem hold at the plain
text input `"hello"`, and the conclusion evaluates there. -/
theorem claim1_witness :
    jsonLoads (psrText (.str "hello")) = Option.none ∧
    hasRequiredSchemaFields (parse_structured_response (.str "hello")) = true :=
  ⟨rfl, claim1_fallback_has_all_fields (.str "hello") (fun _ h => nomatch h)
    rfl rfl⟩

/-- C2: payload coercion is total — in the exception-explicit embedding
every input yields a normal return, equal to the value of the total
function; no exception escapes `parse_structured_response`. -/
theorem claim2_coercion_never_raises (content : PyVal) :
    parse_structured_responseE content = .ok (parse_structured_response content) := by
  cases content with
  | dict kvs => rfl
  | str s =>
    simp only [parse_structured_response, parse_structured_responseE, jsonLoadsE]
    cases jsonLoads (psrText (.str s)) with
    | some v => rfl
    | none =>
      cases jsonLoads (cleanFence (psrText (.str s))) with
      | some v => rfl
      | none => rfl
  | int n =>
    simp only [parse_structured_response, parse_structured_responseE, jsonLoadsE]
    cases jsonLoads (psrText (.int n)) with
    | some v => rfl
    | none =>
      cases jsonLoads (cleanFence (psrText (.int n))) with
      | some v => rfl
      | none => rfl
  | bool b =>
    simp only [parse_structured_response, parse_structured_responseE, jsonLoadsE]
    cases jsonLoads (psrText (.bool b)) with
    | some v => rfl
    | none =>
      cases jsonLoads (cleanFence (psrText (.bool b))) with
      | some v => rfl
      | none => rfl
  | none =>
    simp only [parse_structured_response, parse_structured_responseE, jsonLoadsE]
    cases jsonLoads (psrText .none) with
    | some v => rfl
    | none =>
      cases jsonLoads (cleanFence (psrText .none)) with
      | some v => rfl
      | none => rfl
  | list xs =>
    simp only [parse_structured_response, parse_structured_responseE, jsonLoadsE]
    cases jsonLoads (psrText (.list xs)) with
    | some v => rfl
    | none =>
      cases jsonLoads (cleanFence (psrText (.list xs))) with
      | some v => rfl
      | none => rfl

/-- C8: for every input text failing JSON parsing both as-is and after
fence-stripping, the result is exactly the fallback record: `answer` is
the cleaned text, `provisional_diagnosis` is `"unclear"`, the sequences
are empty, `plan`/`triage`/`risk_flags` are empty strings, and
`confidence` is `"0.0"`. -/
theorem claim8_fallback_record (s : String)
    (h1 : jsonLoads s = Option.none)
    (h2 : jsonLoads (cleanFence s) = Option.none) :
    parse_structured_response (.str s) = fallbackRecord (cleanFence s) := by
  simp only [parse_structured_response, psrText_str]
  rw [h1, h2]

/-- C8 witness: at the fenced non-JSON input the hypotheses hold, the
cleaned text is `"not-valid"`, and the result is the fallback record. -/
theorem claim8_witness :
    jsonLoads "```json not-valid```" = Option.none ∧
    cleanFence "```json not-valid```" = "not-valid" ∧
    parse_structured_response (.str "```json not-valid```") =
      fallbackRecord (cleanFence "```json not-valid```") :=
  ⟨rfl, rfl, claim8_fallback_record "```json not-valid```" rfl rfl⟩

/-- C9 counterexample: coercion is not idempotent — the JSON text `"0"`
coerces to the integer `0`, whose own coercion is the falsey-input
fallback record, a different value. -/
theorem claim9_counterexample :
    parse_structured_response (.str "0") = .int 0 ∧
    parse_structured_response (.int 0) = fallbackRecord "" ∧
    parse_structured_response (parse_structured_response (.str "0")) ≠
      parse_structured_response (.str "0") :=
  ⟨rfl, rfl, fun h => nomatch h⟩

/-- C9 (amended): idempotence holds exactly on record results — whenever a
coercion returns a record (in particular for every already-coerced
record), coercing that result returns it unchanged; it fails for inputs
whose JSON parse yields a non-record value such as `"0"`. -/
theorem claim9_idempotent_on_records (x : PyVal) (kvs : List (String × PyVal))
    (h : parse_structured_response x = .dict kvs) :
    parse_structured_response (parse_structured_response x) =
      parse_structured_response x := by
  rw [h]
  rfl

/-- C9 witness: the amended theorem applies at the plain text `"plain"`,
whose coercion is the fallback record. -/
theorem claim9_witness :
    parse_structured_response (parse_structured_response (.str "plain")) =
      parse_structured_response (.str "plain") :=
  claim9_idempotent_on_records (.str "plain")
    [("answer", .str "plain"), ("provisional_diagnosis", .str "unclear"),
     ("differentials", .list []), ("followups", .list []),
     ("plan", .str ""), ("triage", .str ""), ("risk_flags", .str ""),
     ("confidence", .str "0.0")] rfl

/-- C6 counterexample: a truthy unknown selector does not fall back to the
configured default key — with configured default `"therapist"`, the
selector `"xyz"` resolves to the hard-coded dermatologist persona, not to
the therapist persona the claim's fallback chain prescribes. -/
theorem claim6_counterexample :
    resolveProfile (some "xyz") "therapist" = dermatologistProfile ∧
    dermatologistProfile ≠ therapistProfile :=
  ⟨rfl, by decide⟩

/-- C6 (amended): resolution is total (always one of the two registry
personas), case-insensitive, and `"Therapist"` resolves to the persona
titled "Generalist Therapist"; a falsey (absent or empty) selector falls
back to the configured default key — resolution then behaves exactly as
if the configured default key had been the selector, so configured
default `"therapist"` yields the therapist persona — but a truthy unknown
selector falls back directly to the hard-coded default persona, bypassing
the configured default; a falsey or unknown default key also lands on the
hard-coded default persona. -/
theorem claim6_resolution_total_case_insensitive :
    (∀ ak da, resolveProfile ak da = dermatologistProfile ∨
       resolveProfile ak da = therapistProfile) ∧
    (∀ s t da, s ≠ "" → t ≠ "" → pyLower s = pyLower t →
       resolveProfile (some s) da = resolveProfile (some t) da) ∧
    (∀ da, resolveProfile (some "") da = resolveProfile Option.none da) ∧
    (∀ s da, s ≠ "" → pyLower s ≠ "dermatologist" → pyLower s ≠ "therapist" →
       resolveProfile (some s) da = dermatologistProfile) ∧
    (∀ da, pyLower da ≠ "therapist" →
       resolveProfile Option.none da = dermatologistProfile) ∧
    (∀ da, (resolveProfile (some "Therapist") da).title = "Generalist Therapist") ∧
    (∀ da, resolveProfile Option.none da = resolveProfile (some da) da) ∧
    (resolveProfile Option.none "therapist" = therapistProfile ∧
     resolveProfile (some "") "therapist" = therapistProfile) := by
  refine ⟨?_, ?_, ?_, ?_, ?_, ?_, ?_, rfl, rfl⟩
  · intro ak da
    simp only [resolveProfile]
    cases hf : AGENT_PROFILES.find? (fun kv => kv.1 = resolveKey ak da) with
    | none => left; rfl
    | some kv =>
      have hm := List.mem_of_find?_eq_some hf
      simp only [AGENT_PROFILES, List.mem_cons, List.not_mem_nil, or_false] at hm
      rcases hm with h | h
      · subst h; left; rfl
      · subst h; right; rfl
  · intro s t da hs ht hst
    simp only [resolveProfile, resolveKey, pyOrStr]
    simp only [hs, ht, if_false]
    rw [hst]
  · intro da
    rfl
  · intro s da hs hd ht
    have e1 : (("dermatologist" : String) = pyLower s) = False :=
      eq_false (fun hh => hd hh.symm)
    have e2 : (("therapist" : String) = pyLower s) = False :=
      eq_false (fun hh => ht hh.symm)
    simp only [resolveProfile, resolveKey, pyOrStr]
    simp only [hs, if_false]
    simp [AGENT_PROFILES, List.find?, e1, e2]
  · intro da hth
    simp only [resolveProfile, resolveKey, pyOrStr]
    by_cases hda : da = ""
    · subst hda; rfl
    · simp only [hda, if_false]
      by_cases hd2 : pyLower da = "dermatologist"
      · simp [AGENT_PROFILES, List.find?, hd2]
      · have e1 : (("dermatologist" : String) = pyLower da) = False :=
          eq_false (fun hh => hd2 hh.symm)
        have e2 : (("therapist" : String) = pyLower da) = False :=
          eq_false (fun hh => hth hh.symm)
        simp [AGENT_PROFILES, List.find?, e1, e2]
  · intro da
    rfl
  · intro da
    by_cases hda : da = ""
    · subst hda; rfl
    · simp [resolveProfile, resolveKey, pyOrStr, hda]

/-- C6 witness: case-insensitivity applied at the concrete selectors
`"ThErApIsT"` and `"therapist"`. -/
theorem claim6_witness :
    resolveProfile (some "ThErApIsT") "x" = resolveProfile (some "therapist") "x" :=
  claim6_resolution_total_case_insensitive.2.1 "ThErApIsT" "therapist" "x"
    (by decide) (by decide) rfl

/-- C7 counterexample: with one valid entry followed by eight role-`other`
entries, the code trims to the last 8 entries first and then filters, so
no history turn at all appears between the system and user turns, while
the claim's "up-to-8 most recent valid entries" reading demands the valid
entry. -/
theorem claim7_counterexample :
    build_history (some hist9) = [] ∧
    claimedHistoryTrim hist9 = [⟨"user", .text "hello"⟩] ∧
    build_history (some hist9) ≠ claimedHistoryTrim hist9 ∧
    primaryMessages dermatologistProfile "q" Option.none Option.none (some hist9)
      = [⟨"system", .text dermatologistProfile.system_prompt⟩,
         ⟨"user", .parts [Part.text "q"]⟩] :=
  ⟨rfl, rfl, by decide, rfl⟩

/-- C7 (amended): the primary messages consist of the system turn, then
exactly those among the LAST 8 history entries whose role is
`user`/`assistant` and whose content is non-empty (take 8 first, then
filter — fewer than 8 valid entries may appear even when earlier valid
entries exist), unchanged and in order, then the single user turn. -/
theorem claim7_history_take_then_filter (profile : AgentProfile)
    (question : String) (image_bytes : Option (List Nat))
    (image_filename : Option String) (h : List HistItem) :
    primaryMessages profile question image_bytes image_filename (some h)
      = ⟨"system", .text profile.system_prompt⟩ ::
        (((takeLast 8 h).filter histValid).map histToMsg ++
         [⟨"user", .parts (build_user_parts question image_bytes image_filename)⟩]) := by
  cases h with
  | nil => rfl
  | cons a t => rfl

/-- C3: on a bad-request error whose lowercased message contains
"unsupported" together with "temperature" or "reasoning_effort", the
invoker issues exactly one retry whose parameters drop `temperature` and
`reasoning_effort` and keep everything else, and the final result is the
retry's reply; on any other error no retry is issued and the error
propagates unchanged. -/
theorem claim3_invoker_retry (oracle : Oracle) (idx : Nat) (model : String)
    (messages : List ChatMsg) (temperature : Option PyFloat)
    (max_tokens : Nat) (re_setting : Option String) :
    (∀ e, oracle idx (buildParams model messages temperature max_tokens re_setting) = .error e →
       isUnsupportedParamError e = true →
       chat_with_fallback oracle idx model messages temperature max_tokens re_setting
         = ⟨[buildParams model messages temperature max_tokens re_setting,
             stripOptionalParams (buildParams model messages temperature max_tokens re_setting)],
            oracle (idx + 1)
              (stripOptionalParams (buildParams model messages temperature max_tokens re_setting))⟩) ∧
    (∀ e, oracle idx (buildParams model messages temperature max_tokens re_setting) = .error e →
       isUnsupportedParamError e = false →
       chat_with_fallback oracle idx model messages temperature max_tokens re_setting
         = ⟨[buildParams model messages temperature max_tokens re_setting], .error e⟩) ∧
    ((stripOptionalParams (buildParams model messages temperature max_tokens re_setting)).model = model ∧
     (stripOptionalParams (buildParams model messages temperature max_tokens re_setting)).messages = messages ∧
     (stripOptionalParams (buildParams model messages temperature max_tokens re_setting)).max_completion_tokens = max_tokens ∧
     (stripOptionalParams (buildParams model messages temperature max_tokens re_setting)).response_format = RESPONSE_FORMAT ∧
     (stripOptionalParams (buildParams model messages temperature max_tokens re_setting)).temperature = Option.none ∧
     (stripOptionalParams (buildParams model messages temperature max_tokens re_setting)).reasoning_effort = Option.none) := by
  refine ⟨?_, ?_, rfl, rfl, rfl, rfl, rfl, rfl⟩
  · intro e he hm
    simp only [chat_with_fallback, he, hm, if_true]
  · intro e he hm
    simp only [chat_with_fallback, he, hm, Bool.false_eq_true, if_false]

/-- C3 witness: with an endpoint whose first call raises the bad request
"Unsupported value: 'temperature'" and whose retry succeeds, the invoker
issues the stripped retry and returns its reply. -/
theorem claim3_witness :
    chat_with_fallback oracleTempRetry 0 "m" [] (some temp04) 800 (some "medium")
      = ⟨[buildParams "m" [] (some temp04) 800 (some "medium"),
          stripOptionalParams (buildParams "m" [] (some temp04) 800 (some "medium"))],
         .ok completionW⟩ :=
  (claim3_invoker_retry oracleTempRetry 0 "m" [] (some temp04) 800 (some "medium")).1
    (.badRequest "Unsupported value: \x27temperature\x27") rfl rfl

/-- C4 counterexample: a successful pipeline run is not always exactly two
remote calls — when the primary call is rejected for an unsupported
temperature and the retry succeeds, the run succeeds after three remote
calls. -/
theorem claim4_counterexample :
    isOkResult (run_agent oracleTempRetry stW "hi" Option.none Option.none
      Option.none Option.none).result = true ∧
    (run_agent oracleTempRetry stW "hi" Option.none Option.none
      Option.none Option.none).calls.length = 3 :=
  ⟨rfl, rfl⟩

/-- C4 (amended): a successful run performs the steps in order — persona
resolution, primary messages, primary completion at temperature 0.4 and
budget 800, coercion, verifier messages embedding the serialized coerced
payload, verifier completion at temperature 0.2 and budget 600, coercion,
result assembly with agent key, title, both payloads and model
identifiers; the run makes exactly two completion invocations, hence
exactly two remote calls whenever neither invocation triggers the
unsupported-parameter retry. -/
theorem claim4_success_pipeline (oracle : Oracle) (st : Settings)
    (question : String) (agent_key : Option String)
    (image_bytes : Option (List Nat)) (image_filename : Option String)
    (history : Option (List HistItem)) (c1 c2 : Completion)
    (ch1 ch2 : Choice) (rest1 rest2 : List Choice)
    (h1 : oracle 0 (buildParams st.openai_model
        (primaryMessages (resolveProfile agent_key st.default_agent) question
          image_bytes image_filename history)
        (some temp04) 800 st.reasoning_effort) = .ok c1)
    (hc1 : c1.choices = ch1 :: rest1)
    (h2 : oracle 1 (buildParams st.openai_verifier_model
        (verifierMessages question image_bytes image_filename
          (coerceReply ch1.message))
        (some temp02) 600 st.reasoning_effort) = .ok c2)
    (hc2 : c2.choices = ch2 :: rest2) :
    run_agent oracle st question agent_key image_bytes image_filename history
      = ⟨[buildParams st.openai_model
            (primaryMessages (resolveProfile agent_key st.default_agent)
              question image_bytes image_filename history)
            (some temp04) 800 st.reasoning_effort,
          buildParams st.openai_verifier_model
            (verifierMessages question image_bytes image_filename
              (coerceReply ch1.message))
            (some temp02) 600 st.reasoning_effort],
         .ok { agent := (resolveProfile agent_key st.default_agent).key
               title := (resolveProfile agent_key st.default_agent).title
               analysis_raw := coerceReply ch1.message
               verified := coerceReply ch2.message
               meta_model := st.openai_model
               meta_verifier := st.openai_verifier_model }⟩ := by
  simp only [run_agent, chat_with_schema, chat_with_fallback, h1, hc1,
    List.length_cons, List.length_nil, h2, hc2]
  rfl

/-- C4 witness: the amended theorem instantiated at an always-succeeding
endpoint; the run makes exactly the two expected calls and returns the
assembled result. -/
theorem claim4_witness :
    run_agent oracleAllOk stW "hi" Option.none Option.none Option.none Option.none
      = ⟨[buildParams stW.openai_model
            (primaryMessages (resolveProfile Option.none stW.default_agent)
              "hi" Option.none Option.none Option.none)
            (some temp04) 800 stW.reasoning_effort,
          buildParams stW.openai_verifier_model
            (verifierMessages "hi" Option.none Option.none
              (coerceReply choiceW.message))
            (some temp02) 600 stW.reasoning_effort],
         .ok { agent := (resolveProfile Option.none stW.default_agent).key
               title := (resolveProfile Option.none stW.default_agent).title
               analysis_raw := coerceReply choiceW.message
               verified := coerceReply choiceW.message
               meta_model := stW.openai_model
               meta_verifier := stW.openai_verifier_model }⟩ :=
  claim4_success_pipeline oracleAllOk stW "hi" Option.none Option.none
    Option.none Option.none completionW completionW choiceW choiceW [] []
    rfl rfl rfl rfl

/-- C5 counterexample: with a matching unsupported-parameter error on the
first call and a failing retry, the pipeline fails after TWO remote calls,
not the single call the claim asserts for every unrecovered failure. -/
theorem claim5_counterexample :
    (run_agent oracleRetryBoom stW "hi" Option.none Option.none
      Option.none Option.none).calls.length = 2 ∧
    (run_agent oracleRetryBoom stW "hi" Option.none Option.none
      Option.none Option.none).result = .error (.otherErr "boom") :=
  ⟨rfl, rfl⟩

/-- C5 (amended): when the primary completion fails unrecovered, the
pipeline propagates that error, the verifier call is never issued, and no
fallback payload is produced; the remote calls are exactly the primary
attempt — one call for a non-matching error, two when the matching
error's single retry also fails. -/
theorem claim5_primary_failure_propagates (oracle : Oracle) (st : Settings)
    (question : String) (agent_key : Option String)
    (image_bytes : Option (List Nat)) (image_filename : Option String)
    (history : Option (List HistItem)) :
    (∀ e, oracle 0 (buildParams st.openai_model
        (primaryMessages (resolveProfile agent_key st.default_agent) question
          image_bytes image_filename history)
        (some temp04) 800 st.reasoning_effort) = .error e →
       isUnsupportedParamError e = false →
       run_agent oracle st question agent_key image_bytes image_filename history
         = ⟨[buildParams st.openai_model
               (primaryMessages (resolveProfile agent_key st.default_agent)
                 question image_bytes image_filename history)
               (some temp04) 800 st.reasoning_effort],
            .error e⟩) ∧
    (∀ e e2, oracle 0 (buildParams st.openai_model
        (primaryMessages (resolveProfile agent_key st.default_agent) question
          image_bytes image_filename history)
        (some temp04) 800 st.reasoning_effort) = .error e →
       isUnsupportedParamError e = true →
       oracle 1 (stripOptionalParams (buildParams st.openai_model
         (primaryMessages (resolveProfile agent_key st.default_agent) question
           image_bytes image_filename history)
         (some temp04) 800 st.reasoning_effort)) = .error e2 →
       run_agent oracle st question agent_key image_bytes image_filename history
         = ⟨[buildParams st.openai_model
               (primaryMessages (resolveProfile agent_key st.default_agent)
                 question image_bytes image_filename history)
               (some temp04) 800 st.reasoning_effort,
             stripOptionalParams (buildParams st.openai_model
               (primaryMessages (resolveProfile agent_key st.default_agent)
                 question image_bytes image_filename history)
               (some temp04) 800 st.reasoning_effort)],
            .error e2⟩) := by
  constructor
  · intro e he hm
    simp only [run_agent, chat_with_schema, chat_with_fallback, he, hm,
      Bool.false_eq_true, if_false]
  · intro e e2 he hm hr
    simp only [run_agent, chat_with_schema, chat_with_fallback, he, hm,
      if_true, hr]

/-- C5 witness: the amended theorem instantiated at an endpoint rejecting
every call with a non-matching provider error: one remote call, the error
propagates, no verifier call. -/
theorem claim5_witness :
    run_agent oracleRejectAll stW "hi" Option.none Option.none Option.none Option.none
      = ⟨[buildParams stW.openai_model
            (primaryMessages (resolveProfile Option.none stW.default_agent)
              "hi" Option.none Option.none Option.none)
            (some temp04) 800 stW.reasoning_effort],
         .error (.otherErr "rate limit")⟩ :=
  (claim5_primary_failure_propagates oracleRejectAll stW "hi" Option.none
    Option.none Option.none Option.none).1 (.otherErr "rate limit") rfl rfl

/-- C10: an empty byte payload counts as no image everywhere — a run with
`image_bytes = b""` is identical to a run with no image (even when a
filename is given): the primary user turn has only the text part, the
verifier text says no image is attached, and no image part is appended to
the verifier message. -/
theorem claim10_empty_image_is_absent :
    (∀ oracle st question agent_key image_filename history,
       run_agent oracle st question agent_key (some []) image_filename history
         = run_agent oracle st question agent_key Option.none image_filename history) ∧
    (∀ question image_filename,
       build_user_parts question (some []) image_filename
         = [Part.text (pyStrip question)]) ∧
    (∀ question structured,
       verifierText question (some []) structured
         = "User question: " ++ pyStrip question ++ "\n" ++
           "Image attached: " ++ "no" ++ "\n" ++
           "Agent output JSON: " ++ jsonDumps structured) ∧
    (∀ question image_filename structured,
       verifierMessages question (some []) image_filename structured
         = verifierMessages question Option.none image_filename structured) := by
  refine ⟨?_, ?_, ?_, ?_⟩ <;> intros <;> rfl

end DoctorAI
